import Mathlib

/-!
Shallow embedding of the core of `ticketmaster_resale_notify` (a Python
scrape-detect-notify daemon) together with proofs of the specification
claims about it.

Sources embedded:
- `ticketmaster_resale_notify/models.py` (dataclasses `Event`, `Ticket`)
- `ticketmaster_resale_notify/scraper.py` (`TicketScraper.find_tickets`,
  `_simple_resale_check`, `_parse_ticket_element` price normalization,
  `check_for_resale_tickets`)
- `ticketmaster_resale_notify/notifications.py` (`NotificationService.send`
  retry loop, `NotificationManager.send_notification`)
- `ticketmaster_resale_notify/app.py` (`TicketMonitor._handle_resale_tickets_found`
  alert composition, `_wait_until_next_check` chunked wait)
- `ticketmaster_resale_notify/browser.py` (`BrowserManager.setup`/`cleanup`
  resource protocol)

Modelling conventions: Python `float` currency amounts are modelled as `ℚ`
(the claims only involve values exact at two decimals); page content reached
through the browser engine is modelled as explicit data (`ListItem`,
`PageModel`); Python truthiness of optionals (`x or d`, `if x:`) is embedded
by explicit helper functions.
-/

namespace TMRN

/-- Embeds `models.py` dataclass `Event` (the `date` field, a `datetime`
never set anywhere in the embedded code paths, is omitted). -/
structure Event where
  url : String
  name : Option String := none
  venue : Option String := none
deriving DecidableEq, Repr

/-- Embeds `models.py` dataclass `Ticket`.  The Python annotation of
`event` is `Event`, but `scraper.find_tickets` passes `event=None` to
`_simple_resale_check` (local `event` is never assigned), so the field is
an `Option`.  `price` is `Option ℚ` for Python `Optional[float]`. -/
structure Ticket where
  event : Option Event := none
  «section» : String
  row : Option String := none
  price : Option ℚ := none
  quantity : Nat := 1
  is_verified_resale : Bool := false
  listing_url : Option String := none
deriving DecidableEq, Repr

/-- Python truthiness used as `x or default` on an optional string:
`None` and `""` are falsy, every other string is returned unchanged. -/
def pyOrStr (o : Option String) (d : String) : String :=
  match o with
  | none => d
  | some s => if s = "" then d else s

/-! ## Scraper: page model and the simplified resale scan
(`scraper.py` lines 543-582, `_simple_resale_check`). -/

/-- One `li[role="button"]` element of the listing page, as seen by
`_simple_resale_check`: the stripped text of its `span` descendants in
document order, and for each `dt` descendant its stripped text together
with the stripped text of its `nextElementSibling` (`none` when the
sibling is absent). -/
structure ListItem where
  spans : List String
  dts : List (String × Option String)
deriving DecidableEq, Repr

/-- The `for dt in dt_elements` loop of `_simple_resale_check`
(lines 559-566): the first `dt` whose text equals `"Section"` supplies
`section_text` from its adjacent sibling, then the loop breaks. -/
def recoverSection : List (String × Option String) → Option String
  | [] => none
  | (dtText, sib) :: rest => if dtText = "Section" then sib else recoverSection rest

/-- The inner `for span in spans` loop of `_simple_resale_check`
(lines 553-555): scans for a span whose stripped text is exactly
`"Verified Resale Ticket"`; on the first hit the loop builds a ticket and
breaks, so the result per item is at most one hit. -/
def spanHit : List String → Bool
  | [] => false
  | s :: rest => if s = "Verified Resale Ticket" then true else spanHit rest

/-- The `Ticket(...)` constructed at lines 569-578 of `scraper.py`:
`section = section_text or "N/A"`, `row=None`, `price=None`,
`is_verified_resale=True`, `quantity=1`, with `event = None` as passed by
`find_tickets`. -/
def mkSimpleTicket (li : ListItem) : Ticket :=
  { event := none
    «section» := pyOrStr (recoverSection li.dts) "N/A"
    row := none
    price := none
    is_verified_resale := true
    quantity := 1 }

/-- `TicketScraper._simple_resale_check` over the scanned list items: each
item with a matching span contributes exactly one basic ticket, in page
order. -/
def simple_resale_check (items : List ListItem) : List Ticket :=
  items.filterMap fun li => if spanHit li.spans then some (mkSimpleTicket li) else none

/-- Abstraction of one check cycle's page interaction, the inputs that
decide the result of `TicketScraper.find_tickets`: whether an exception
was raised during steps 1-7 (caught by the top-level handler at line 266,
which returns `[]`), whether `_click_find_tickets` succeeded, and the
`li[role="button"]` items of the revealed listing. -/
structure PageModel where
  navFails : Bool
  buttonFound : Bool
  items : List ListItem
deriving Repr

/-- Result of `find_tickets` together with an instrumentation counter for
invocations of the detailed parser `_parse_ticket_element`; the detailed
parsing loop (lines 166-264 of `scraper.py`) sits after the unconditional
`return []` at line 165 and is unreachable, so no branch of the embedding
increments the counter. -/
structure FindResult where
  tickets : List Ticket
  detailedParseCalls : Nat
deriving DecidableEq, Repr

/-- `TicketScraper.find_tickets` (lines 83-277): exception anywhere in the
navigation sequence yields `[]` (top-level handler); a missed reveal
button yields the empty `tickets` list (line 151); otherwise the
simplified scan is run and its result returned when non-empty, else `[]`
(lines 158-165). -/
def find_tickets (p : PageModel) : FindResult :=
  if p.navFails then ⟨[], 0⟩
  else if !p.buttonFound then ⟨[], 0⟩
  else
    let simple := simple_resale_check p.items
    if simple.isEmpty then ⟨[], 0⟩ else ⟨simple, 0⟩

/-- `TicketScraper.check_for_resale_tickets` (lines 584-587):
`[t for t in all_tickets if t.is_verified_resale]`. -/
def check_for_resale_tickets (p : PageModel) : List Ticket :=
  (find_tickets p).tickets.filter fun t => t.is_verified_resale

/-! ## Scraper: detailed-parse price normalization
(`scraper.py` lines 481-497 inside `_parse_ticket_element`). -/

/-- Line 484: `''.join(c for c in price_text if c.isdigit() or c in '.,')`.
The claims exercise only ASCII digits, for which Python `str.isdigit`
agrees with `Char.isDigit`. -/
def cleanPrice (s : List Char) : List Char :=
  s.filter fun c => c.isDigit || c == '.' || c == ','

/-- Lines 486-492: the separator disambiguation.  When both `,` and `.`
occur, the branch is chosen by comparing the first (`str.find`) positions;
`price_str.find(',') < price_str.find('.')` selects
`replace('.', '').replace(',', '.')`, otherwise `replace(',', '')`; with
at most one separator kind, `replace(',', '.')`. -/
def normalizeSeparators (s : List Char) : List Char :=
  if s.contains ',' && s.contains '.' then
    if s.indexOf ',' < s.indexOf '.' then
      (s.filter fun c => c ≠ '.').map fun c => if c = ',' then '.' else c
    else
      s.filter fun c => c ≠ ','
  else
    s.map fun c => if c = ',' then '.' else c

/-- Value of a digit list read in base 10. -/
def digitsVal (l : List Char) : Nat :=
  l.foldl (fun acc c => acc * 10 + (c.toNat - 48)) 0

/-- Line 494: `float(price_str)`, restricted to the non-negative decimal
literals the cleaned strings can be: at most one `.`, at least one digit,
nothing but digits and `.`; any other shape raises `ValueError` in Python,
caught at line 496 leaving `price = None`. -/
def parseDecimal (s : List Char) : Option ℚ :=
  if (s.all fun c => c.isDigit || c == '.') && s.count '.' ≤ 1 && s.any (fun c => c.isDigit) then
    let intPart := s.takeWhile fun c => c ≠ '.'
    let fracPart := (s.dropWhile fun c => c ≠ '.').drop 1
    some ((digitsVal intPart : ℚ) + (digitsVal fracPart : ℚ) / (10 ^ fracPart.length))
  else none

/-- The whole price-text normalization of `_parse_ticket_element`
(lines 481-497): strip, disambiguate separators, parse; `none` models the
`ValueError` path that leaves the price unset. -/
def parse_price (priceText : String) : Option ℚ :=
  parseDecimal (normalizeSeparators (cleanPrice priceText.data))

/-! ## Notification delivery (`notifications.py`). -/

/-- Observable behaviour of one `_send_impl` invocation: it either raises
an exception or returns a boolean. -/
inductive ImplOutcome where
  | raises
  | returns (b : Bool)
deriving DecidableEq, Repr

/-- Observable trace of one `NotificationService.send` call: how many
times `_send_impl` ran, the durations passed to `asyncio.sleep` between
attempts, and the boolean the method returned.  The method is total: the
`except Exception` handler means no exception escapes, which the embedding
expresses by `send` being a total function into `SendTrace`. -/
structure SendTrace where
  invocations : Nat
  sleeps : List Nat
  result : Bool
deriving DecidableEq, Repr

/-- The body of the `for attempt in range(1, retry_attempts + 1)` loop of
`NotificationService.send` (lines 25-41 of `notifications.py`), with
`remaining` the number of attempts still available including the current
one and `attempt` the 1-based attempt counter.  A non-raising `_send_impl`
returns its boolean immediately; a raise on the final attempt
(`attempt == retry_attempts`, i.e. `remaining = 1`) returns `False`;
otherwise the loop sleeps `retry_delay * attempt` and retries.  Exhausted
loop (`remaining = 0`, only possible when `retry_attempts = 0`) falls
through to `return False` at line 41. -/
def sendLoop (d : Nat) (impl : Nat → ImplOutcome) : Nat → Nat → SendTrace
  | 0, _ => ⟨0, [], false⟩
  | remaining + 1, attempt =>
    match impl attempt with
    | .returns b => ⟨1, [], b⟩
    | .raises =>
      if remaining = 0 then ⟨1, [], false⟩
      else
        let rest := sendLoop d impl remaining (attempt + 1)
        ⟨rest.invocations + 1, d * attempt :: rest.sleeps, rest.result⟩

/-- `NotificationService.send` with `retry_attempts = n` and
`retry_delay = d`, run against an `_send_impl` whose behaviour on the
`a`-th invocation is `impl a`. -/
def send (n d : Nat) (impl : Nat → ImplOutcome) : SendTrace :=
  sendLoop d impl n 1

/-- Outcome of one service's `send` as observed by
`asyncio.gather(..., return_exceptions=True)`: either a boolean or a
captured exception (`Except.error`). -/
abbrev ServiceResult := Except Unit Bool

/-- The success test in the final line of
`NotificationManager.send_notification`:
`not isinstance(r, Exception) and r`. -/
def gatherOk : ServiceResult → Bool
  | .ok b => b
  | .error _ => false

/-- `NotificationManager.send_notification` (lines 94-128 of
`notifications.py`), with each configured service represented by the
result of its `send`.  With no services it returns `False` at once (the
`Notification` value is never constructed and no transport runs);
otherwise every service is dispatched to (the returned count), failures
are only logged, and the result is `any(...)` over the gathered results.
The method is total — it always returns a boolean. -/
def send_notification (services : List ServiceResult) : Bool × Nat :=
  if services.isEmpty then (false, 0)
  else (services.any gatherOk, services.length)

/-! ## Monitor loop: alert composition
(`app.py` lines 113-143, `_handle_resale_tickets_found`). -/

/-- Decimal digit characters of a natural number, most significant first. -/
def natDigits (n : Nat) : List Char :=
  Nat.toDigits 10 n

/-- Thousands grouping on a reversed digit list: after every third digit
(counted from the little end) a `,` is inserted while more digits follow. -/
def commaGroup : List Char → List Char
  | a :: b :: c :: d :: rest => a :: b :: c :: ',' :: commaGroup (d :: rest)
  | l => l

/-- Integer part of Python `{:,.2f}`: decimal digits with `,` thousands
separators. -/
def withCommas (n : Nat) : String :=
  ⟨(commaGroup (natDigits n).reverse).reverse⟩

/-- Two-digit cents field. -/
def pad2 (n : Nat) : String :=
  if n < 10 then "0" ++ toString n else toString n

/-- Python `f"{p:,.2f}"` on a non-negative currency amount, modelled over
`ℚ`: round to whole cents (every amount in the embedded claims is exact at
two decimals, so the rounding mode is immaterial), then print with
thousands separators and a two-digit fraction. -/
def formatEuroAmount (q : ℚ) : String :=
  let c := (round (q * 100) : ℤ).toNat
  withCommas (c / 100) ++ "." ++ pad2 (c % 100)

/-- Line 124 of `app.py`:
`price = f"€{ticket.price:,.2f}" if ticket.price else "Price not available"`.
Python truthiness makes both `None` and `0.0` take the fallback text. -/
def priceStr (p : Option ℚ) : String :=
  match p with
  | none => "Price not available"
  | some q => if q = 0 then "Price not available" else "€" ++ formatEuroAmount q

/-- The numbered per-ticket part appended at line 125:
`f"\n{i}. {ticket.section} - {price}"`. -/
def mainLine (i : Nat) (t : Ticket) : String :=
  "\n" ++ toString i ++ ". " ++ t.«section» ++ " - " ++ priceStr t.price

/-- Lines 126-127: `if ticket.row: ... f" (Row {ticket.row})"`, with
Python truthiness on the optional row string. -/
def rowPart (t : Ticket) : String :=
  match t.row with
  | none => ""
  | some r => if r = "" then "" else " (Row " ++ r ++ ")"

/-- The `for i, ticket in enumerate(tickets[:5], 1)` loop of lines
123-127, flattened to the string the final `"".join` produces for it. -/
def ticketLines : Nat → List Ticket → String
  | _, [] => ""
  | i, t :: rest => mainLine i t ++ rowPart t ++ ticketLines (i + 1) rest

/-- Line 119 header:
`f"🎟️ {event.name or 'Event'} - {len(tickets)} resale ticket(s) found!"`. -/
def alertHeader (ev : Event) (tickets : List Ticket) : String :=
  "🎟️ " ++ pyOrStr ev.name "Event" ++ " - " ++ toString tickets.length
    ++ " resale ticket(s) found!"

/-- The full alert text `"".join(message_parts)` composed by
`_handle_resale_tickets_found` (lines 118-137): header, the first five
tickets' lines, the `... and {n-5} more` note when more than five tickets
were found, and the event URL. -/
def composeMessage (ev : Event) (tickets : List Ticket) : String :=
  alertHeader ev tickets
    ++ ticketLines 1 (tickets.take 5)
    ++ (if 5 < tickets.length then
          "\n... and " ++ toString (tickets.length - 5) ++ " more"
        else "")
    ++ "\n\n🔗 " ++ ev.url

/-- The event of the end-to-end alert scenario (spec section 8). -/
def scenarioEvent : Event :=
  ⟨"https://example.com/event/1", some "Test Event", none⟩

/-- First scenario ticket: section "A", price 99.99, verified. -/
def ticketA : Ticket :=
  { «section» := "A", price := some ((9999 : ℚ) / 100), is_verified_resale := true }

/-- Second scenario ticket: section "B", price 149.99, verified. -/
def ticketB : Ticket :=
  { «section» := "B", price := some ((14999 : ℚ) / 100), is_verified_resale := true }

/-- Pattern match of `pat` against the head of `hay`, character by
character. -/
def patAt : List Char → List Char → Bool
  | [], _ => true
  | _ :: _, [] => false
  | p :: ps, h :: hs => if p = h then patAt ps hs else false

/-- `pat` occurs as a contiguous run somewhere in `hay`. -/
def hasSub (pat : List Char) : List Char → Bool
  | [] => patAt pat []
  | h :: t => patAt pat (h :: t) || hasSub pat t

/-- Substring test on strings (Python `pat in hay`). -/
def containsStr (hay pat : String) : Bool :=
  hasSub pat.data hay.data

/-! ## Monitor loop: chunked inter-cycle wait
(`app.py` lines 145-174, `_wait_until_next_check`). -/

/-- Number of full 10-second chunks: `int(wait_seconds // 10)` for a
non-negative float `wait_seconds`. -/
def chunksOf (W : ℚ) : Nat :=
  (⌊W / 10⌋).toNat

/-- The `for _ in range(chunks)` loop of lines 163-166 as a timeline:
`t` is the time elapsed since the wait began and `T` the instant the
shutdown flag was set (the flag reads true exactly when `T ≤ now`).
Each iteration first checks the flag and returns, then sleeps 10 s. -/
def waitLoop (T : ℚ) : Nat → ℚ → ℚ
  | 0, t => t
  | n + 1, t => if T ≤ t then t else waitLoop T n (t + 10)

/-- Elapsed time at which `_wait_until_next_check` returns, for a total
drawn wait of `W` seconds when the shutdown flag is set at time `T`:
after the chunk loop the remainder `wait_seconds % 10` is slept only if
the flag is still unset (lines 169-170). -/
def returnTime (W T : ℚ) : ℚ :=
  let c := chunksOf W
  let r := W - 10 * c
  let t := waitLoop T c 0
  if T ≤ t then t else t + r

/-! ## Browser session resource protocol (`browser.py` and the
`async with TicketScraper(...)` scope in `app.py` `check_event`). -/

/-- The four resources `BrowserManager` acquires: the Playwright engine
(`async_playwright().start()`), the browser, the context and the page. -/
inductive Res where
  | engine
  | browser
  | context
  | page
deriving DecidableEq, Repr

/-- Acquisition / release events of one scraper session. -/
inductive Ev where
  | acq (r : Res)
  | rel (r : Res)
deriving DecidableEq, Repr

/-- The steps of `BrowserManager.setup` (lines 40-71 of `browser.py`) in
program order; `some r` acquires resource `r`, `none` is a non-acquiring
step (`add_init_script` at line 63, `set_default_timeout` at line 71). -/
def setupSteps : List (Option Res) :=
  [some .engine, some .browser, some .context, none, some .page, none]

/-- Run `setup` with an optional injected exception before step `k`
(0-based): the acquisition events of the steps that ran, and whether setup
completed. -/
def runSetup (failAt : Option Nat) : List Ev × Bool :=
  match failAt with
  | none => (setupSteps.filterMap fun o => o.map Ev.acq, true)
  | some k => ((setupSteps.take k).filterMap fun o => o.map Ev.acq, false)

/-- Resources acquired in a trace. -/
def acquiredIn (tr : List Ev) : List Res :=
  tr.filterMap fun e => match e with | .acq r => some r | .rel _ => none

/-- `BrowserManager.cleanup` (lines 73-82): close page, context, browser,
engine in that order, each guarded by the corresponding field being set
(so only acquired resources are released). -/
def cleanupEvents (acquired : List Res) : List Ev :=
  ([Res.page, Res.context, Res.browser, Res.engine].filter
    fun r => acquired.contains r).map Ev.rel

/-- One scraper session as scoped by `async with TicketScraper(...)` in
`TicketMonitor.check_event`: `__aenter__` runs `setup`; Python invokes
`__aexit__` (which calls `cleanup` exactly once) when the body completes
or raises, but not when `__aenter__` itself raised — a setup exception
propagates with no cleanup call. -/
def runSession (failSetupAt : Option Nat) (bodyRaises : Bool) : List Ev :=
  let s := runSetup failSetupAt
  if s.2 then
    let _ := bodyRaises
    s.1 ++ cleanupEvents (acquiredIn s.1)
  else s.1

/-! ## Theorems -/

/-- C1: `check_for_resale_tickets(url)` equals `find_tickets(url)` filtered
to `is_verified_resale == true`: every element of the result is verified,
the result is no longer than `find_tickets(url)`, and it preserves the
order of `find_tickets(url)` (it is a sublist). -/
theorem check_for_resale_tickets_is_filter (p : PageModel) :
    check_for_resale_tickets p
        = (find_tickets p).tickets.filter (fun t => t.is_verified_resale)
      ∧ (∀ t ∈ check_for_resale_tickets p, t.is_verified_resale = true)
      ∧ (check_for_resale_tickets p).length ≤ (find_tickets p).tickets.length
      ∧ List.Sublist (check_for_resale_tickets p) (find_tickets p).tickets := by
  refine ⟨rfl, ?_, ?_, ?_⟩
  · intro t ht
    exact (List.mem_filter.mp ht).2
  · exact List.length_filter_le _ _
  · exact List.filter_sublist _

/-- Witness for C1: on a page with one verified-resale list item, the
single returned ticket is verified. -/
theorem check_for_resale_tickets_is_filter_witness :
    (mkSimpleTicket ⟨["Verified Resale Ticket"], []⟩).is_verified_resale = true :=
  (check_for_resale_tickets_is_filter
      ⟨false, true, [⟨["Verified Resale Ticket"], []⟩]⟩).2.1 _ (by decide)

/-- C2, evaluated at the failing inputs: the code strips to digits and
separators and handles the single-separator case as the claim says
(`"€99.99"` parses to `99.99`), but the both-separators branch condition
`price_str.find(',') < price_str.find('.')` is inverted relative to the
inline comments (the branch labelled "European format" fires on
US-format strings and vice versa), so `"1.234,56"` and `"1,234.56"` both
parse to `1.23456` — not to the `1234.56` the claim states. -/
theorem parse_price_at_failing_inputs :
    parse_price "1.234,56" = some ((123456 : ℚ) / 100000)
  ∧ parse_price "1.234,56" ≠ some ((123456 : ℚ) / 100)
  ∧ parse_price "1,234.56" = some ((123456 : ℚ) / 100000)
  ∧ parse_price "1,234.56" ≠ some ((123456 : ℚ) / 100)
  ∧ parse_price "€99.99" = some ((9999 : ℚ) / 100) := by
  have pmid : parseDecimal "1.23456".data = some ((123456 : ℚ) / 100000) := by
    unfold parseDecimal
    rw [if_pos (by decide)]
    have h1 : ("1.23456".data.takeWhile fun c => c ≠ '.') = ['1'] := by decide
    have h2 : (("1.23456".data.dropWhile fun c => c ≠ '.').drop 1)
        = ['2', '3', '4', '5', '6'] := by decide
    rw [h1, h2]
    have d1 : digitsVal ['1'] = 1 := by decide
    have d2 : digitsVal ['2', '3', '4', '5', '6'] = 23456 := by decide
    norm_num [d1, d2]
  have P1 : parse_price "1.234,56" = some ((123456 : ℚ) / 100000) := by
    show parseDecimal (normalizeSeparators (cleanPrice "1.234,56".data)) = _
    rw [show normalizeSeparators (cleanPrice "1.234,56".data) = "1.23456".data by decide]
    exact pmid
  have P2 : parse_price "1,234.56" = some ((123456 : ℚ) / 100000) := by
    show parseDecimal (normalizeSeparators (cleanPrice "1,234.56".data)) = _
    rw [show normalizeSeparators (cleanPrice "1,234.56".data) = "1.23456".data by decide]
    exact pmid
  have P3 : parse_price "€99.99" = some ((9999 : ℚ) / 100) := by
    show parseDecimal (normalizeSeparators (cleanPrice "€99.99".data)) = _
    rw [show normalizeSeparators (cleanPrice "€99.99".data) = "99.99".data by decide]
    unfold parseDecimal
    rw [if_pos (by decide)]
    have h1 : ("99.99".data.takeWhile fun c => c ≠ '.') = ['9', '9'] := by decide
    have h2 : (("99.99".data.dropWhile fun c => c ≠ '.').drop 1) = ['9', '9'] := by decide
    rw [h1, h2]
    have d1 : digitsVal ['9', '9'] = 99 := by decide
    norm_num [d1]
  refine ⟨P1, ?_, P2, ?_, P3⟩
  · rw [P1]
    simp only [ne_eq, Option.some.injEq]
    norm_num
  · rw [P2]
    simp only [ne_eq, Option.some.injEq]
    norm_num

/-- C4: `NotificationManager.send_notification` with zero services returns
failure at once with no transport invocation; with at least one service it
dispatches to all of them (the invocation count equals the number of
services) and reports success exactly when some service succeeded; a
service's failure or exception never propagates — the function is total
and always returns a boolean. -/
theorem send_notification_spec (services : List ServiceResult) :
    (services = [] → send_notification services = (false, 0))
  ∧ (services ≠ [] →
      ((send_notification services).1 = true ↔ Except.ok true ∈ services)
    ∧ (send_notification services).2 = services.length) := by
  constructor
  · rintro rfl; rfl
  · intro h
    have hne : services.isEmpty = false := by
      simpa [List.isEmpty_iff] using h
    refine ⟨?_, by simp [send_notification, hne]⟩
    simp only [send_notification, hne, Bool.false_eq_true, if_false, List.any_eq_true]
    constructor
    · rintro ⟨x, hx, hgx⟩
      cases x with
      | ok b =>
        cases b with
        | true => exact hx
        | false => simp [gatherOk] at hgx
      | error e => simp [gatherOk] at hgx
    · intro hx
      exact ⟨_, hx, rfl⟩

/-- Witness for C4: zero services give `(false, 0)`; one failing plus one
succeeding service give success. -/
theorem send_notification_spec_witness :
    send_notification [] = (false, 0)
  ∧ (send_notification [Except.error (), Except.ok true]).1 = true :=
  ⟨(send_notification_spec []).1 rfl,
   ((send_notification_spec [Except.error (), Except.ok true]).2 (by simp)).1.mpr
     (by simp)⟩

/-- C9 (implicit): `send` retries only on a raised exception; when
`_send_impl` returns `False` without raising, `send` returns that `False`
immediately after the single invocation, with no backoff sleep, however
many attempts remain. -/
theorem send_false_no_retry (n d : Nat) (impl : Nat → ImplOutcome)
    (hn : 1 ≤ n) (h : impl 1 = .returns false) :
    send n d impl = ⟨1, [], false⟩ := by
  cases n with
  | zero => omega
  | succ m => simp [send, sendLoop, h]

/-- Witness for C9: with three attempts configured and an `_send_impl`
returning `False` on every call, `send` stops after one invocation. -/
theorem send_false_no_retry_witness :
    send 3 5 (fun _ => .returns false) = ⟨1, [], false⟩ :=
  send_false_no_retry 3 5 (fun _ => .returns false) (by decide) rfl

/-- C10 (implicit): the alert line shows the euro amount only for a
present, non-zero price; a price of exactly `0.0` is rendered as
`"Price not available"`, identically to an absent price (Python
truthiness of `ticket.price` at line 124 of `app.py`). -/
theorem price_zero_renders_not_available :
    priceStr (some 0) = "Price not available"
  ∧ priceStr none = "Price not available"
  ∧ (∀ q : ℚ, q ≠ 0 → priceStr (some q) = "€" ++ formatEuroAmount q)
  ∧ (∀ i (t : Ticket),
      mainLine i { t with price := some 0 } = mainLine i { t with price := none }) := by
  refine ⟨rfl, rfl, ?_, ?_⟩
  · intro q hq
    simp [priceStr, hq]
  · intro i t
    simp [mainLine, priceStr]

/-- Witness for C10: a non-zero price is rendered as a euro amount. -/
theorem price_zero_renders_not_available_witness :
    priceStr (some ((9999 : ℚ) / 100)) = "€" ++ formatEuroAmount ((9999 : ℚ) / 100) :=
  price_zero_renders_not_available.2.2.1 _ (by norm_num)

/-- Counterexample for C7 as stated: injecting an exception at setup step 3
(`add_init_script`, after engine, browser and context are acquired) makes
`__aenter__` raise, Python then skips `__aexit__`, and the session ends
with the browser acquired and never released — the release count is 0,
not 1. -/
theorem setup_failure_leak_counterexample :
    (runSession (some 3) false).contains (Ev.acq Res.browser) = true
  ∧ (runSession (some 3) false).count (Ev.rel Res.browser) = 0 := by
  decide

/-- C7 amended: a session whose `setup` completes releases page, context,
browser and engine exactly once each, in reverse-acquisition order, both
when the body succeeds and when it raises; an exception during an
intermediate setup step instead leaves the already-acquired resources
unreleased. -/
theorem session_release_after_setup (bodyRaises : Bool) :
    runSession none bodyRaises
      = [Ev.acq Res.engine, Ev.acq Res.browser, Ev.acq Res.context, Ev.acq Res.page,
         Ev.rel Res.page, Ev.rel Res.context, Ev.rel Res.browser, Ev.rel Res.engine] := by
  cases bodyRaises <;> rfl

/-- Helper: `String.append` concatenates the underlying character lists. -/
theorem strData_append (a b : String) : (a ++ b).data = a.data ++ b.data := rfl

/-- Helper: a pattern matches at the head of itself followed by anything. -/
theorem patAt_append_self (p r : List Char) : patAt p (p ++ r) = true := by
  induction p with
  | nil => rfl
  | cons c cs ih => simp [patAt, ih]

/-- Helper: a head match is an occurrence. -/
theorem hasSub_of_patAt (p l : List Char) (h : patAt p l = true) : hasSub p l = true := by
  cases l with
  | nil => simpa [hasSub] using h
  | cons x xs => simp [hasSub, h]

/-- Helper: an occurrence in the right part survives prepending. -/
theorem hasSub_append_of_right (p : List Char) :
    ∀ xs ys, hasSub p ys = true → hasSub p (xs ++ ys) = true := by
  intro xs
  induction xs with
  | nil => intro ys h; simpa using h
  | cons x t ih => intro ys h; simp [hasSub, ih ys h]

/-- Helper: the alert for a two-ticket list, unfolded one loop iteration at
a time (definitional). -/
theorem composeMessage_pair (ev : Event) (t1 t2 : Ticket) :
    composeMessage ev [t1, t2]
      = alertHeader ev [t1, t2]
        ++ (mainLine 1 t1 ++ rowPart t1 ++ (mainLine 2 t2 ++ rowPart t2 ++ ""))
        ++ "" ++ "\n\n🔗 " ++ ev.url := rfl

/-- Helper: the exact alert text composed in the end-to-end scenario of
two verified tickets at 99.99 and 149.99. -/
theorem scenario_message_eq :
    composeMessage scenarioEvent [ticketA, ticketB]
      = "🎟️ Test Event - 2 resale ticket(s) found!\n1. A - €99.99\n2. B - €149.99\n\n🔗 https://example.com/event/1" := by
  have hf1 : formatEuroAmount ((9999 : ℚ) / 100) = "99.99" := by
    simp only [formatEuroAmount]
    rw [show round (((9999 : ℚ) / 100) * 100) = (9999 : ℤ) by norm_num [round_eq]]
    decide
  have hf2 : formatEuroAmount ((14999 : ℚ) / 100) = "149.99" := by
    simp only [formatEuroAmount]
    rw [show round (((14999 : ℚ) / 100) * 100) = (14999 : ℤ) by norm_num [round_eq]]
    decide
  have hp1 : priceStr (some ((9999 : ℚ) / 100)) = "€99.99" := by
    simp only [priceStr]
    rw [if_neg (by norm_num : ¬((9999 : ℚ) / 100 = 0)), hf1]
    decide
  have hp2 : priceStr (some ((14999 : ℚ) / 100)) = "€149.99" := by
    simp only [priceStr]
    rw [if_neg (by norm_num : ¬((14999 : ℚ) / 100 = 0)), hf2]
    decide
  rw [composeMessage_pair,
    show mainLine 1 ticketA = "\n1. A - " ++ priceStr (some ((9999 : ℚ) / 100)) from rfl,
    show mainLine 2 ticketB = "\n2. B - " ++ priceStr (some ((14999 : ℚ) / 100)) from rfl,
    hp1, hp2]
  decide

/-- Counterexample to C6 as stated: in the two-ticket scenario the second
line reads `"B - €149.99"` — two-decimal formatting of `149.99` — so the
message does not contain the claimed substring `"B - €150.00"`. -/
theorem alert_message_150_counterexample :
    containsStr (composeMessage scenarioEvent [ticketA, ticketB]) "B - €150.00" = false := by
  rw [containsStr, scenario_message_eq]
  decide

/-- C6 amended: the scenario alert contains `"2 resale ticket(s)"`, the
line `"A - €99.99"`, the line `"B - €149.99"` (two-decimal formatting of
149.99), and the event URL; in general the alert depends only on the
first five tickets and the total count, and when more than five are found
it contains the `"... and {n-5} more"` truncation note. -/
theorem alert_message_spec_amended :
    containsStr (composeMessage scenarioEvent [ticketA, ticketB]) "2 resale ticket(s)" = true
  ∧ containsStr (composeMessage scenarioEvent [ticketA, ticketB]) "A - €99.99" = true
  ∧ containsStr (composeMessage scenarioEvent [ticketA, ticketB]) "B - €149.99" = true
  ∧ containsStr (composeMessage scenarioEvent [ticketA, ticketB])
      "https://example.com/event/1" = true
  ∧ (∀ ev (tickets : List Ticket), 5 < tickets.length →
      containsStr (composeMessage ev tickets)
        ("\n... and " ++ toString (tickets.length - 5) ++ " more") = true)
  ∧ (∀ ev (t1 t2 : List Ticket), List.take 5 t1 = List.take 5 t2 →
      t1.length = t2.length → composeMessage ev t1 = composeMessage ev t2) := by
  refine ⟨?_, ?_, ?_, ?_, ?_, ?_⟩
  · rw [containsStr, scenario_message_eq]; decide
  · rw [containsStr, scenario_message_eq]; decide
  · rw [containsStr, scenario_message_eq]; decide
  · rw [containsStr, scenario_message_eq]; decide
  · intro ev tks h
    have hd : (composeMessage ev tks).data
        = (alertHeader ev tks).data
          ++ ((ticketLines 1 (tks.take 5)).data
            ++ (("\n... and " ++ toString (tks.length - 5) ++ " more").data
              ++ (("\n\n🔗 ").data ++ ev.url.data))) := by
      simp only [composeMessage]
      rw [if_pos h]
      simp only [strData_append, List.append_assoc]
    show hasSub ("\n... and " ++ toString (tks.length - 5) ++ " more").data
      (composeMessage ev tks).data = true
    rw [hd]
    apply hasSub_append_of_right
    apply hasSub_append_of_right
    exact hasSub_of_patAt _ _ (patAt_append_self _ _)
  · intro ev t1 t2 h5 hlen
    simp only [composeMessage, alertHeader, h5, hlen]

/-- Witness for the amended C6: a six-ticket alert contains the
truncation note. -/
theorem alert_message_spec_amended_witness :
    containsStr
      (composeMessage ⟨"u", none, none⟩
        (List.replicate 6 { «section» := "S", is_verified_resale := true }))
      ("\n... and "
        ++ toString
          ((List.replicate 6
            ({ «section» := "S", is_verified_resale := true } : Ticket)).length - 5)
        ++ " more") = true :=
  alert_message_spec_amended.2.2.2.2.1 _ _ (by decide)

/-- C5: once a check cycle reaches the listing scan (navigation succeeded
and the reveal button was clicked), the simplified scan is authoritative:
an empty scan makes `find_tickets` return the empty list and the detailed
parser is never invoked; every scanned ticket is verified with null price,
null row and quantity 1, at most one ticket arises per list item, and the
section falls back to the literal `"N/A"` when no Section label is
recoverable. -/
theorem simple_scan_authoritative (p : PageModel)
    (hnav : p.navFails = false) (hbtn : p.buttonFound = true) :
    (simple_resale_check p.items = [] → find_tickets p = ⟨[], 0⟩)
  ∧ (find_tickets p).detailedParseCalls = 0
  ∧ (∀ t ∈ simple_resale_check p.items,
      t.is_verified_resale = true ∧ t.price = none ∧ t.row = none ∧ t.quantity = 1)
  ∧ (simple_resale_check p.items).length ≤ p.items.length
  ∧ (∀ li ∈ p.items, recoverSection li.dts = none →
      (mkSimpleTicket li).«section» = "N/A") := by
  refine ⟨?_, ?_, ?_, ?_, ?_⟩
  · intro h
    simp [find_tickets, hnav, hbtn, h]
  · have hsplit : find_tickets p
        = if (simple_resale_check p.items).isEmpty then ⟨[], 0⟩
          else ⟨simple_resale_check p.items, 0⟩ := by
      simp [find_tickets, hnav, hbtn]
    rw [hsplit]
    cases hE : (simple_resale_check p.items).isEmpty <;> simp
  · intro t ht
    simp only [simple_resale_check, List.mem_filterMap] at ht
    obtain ⟨li, hmem, hli⟩ := ht
    by_cases hs : spanHit li.spans = true
    · rw [if_pos hs] at hli
      injection hli with h2
      subst h2
      simp [mkSimpleTicket]
    · rw [if_neg hs] at hli
      exact absurd hli (by simp)
  · exact List.length_filterMap_le _ _
  · intro li hmem h
    simp [mkSimpleTicket, h, pyOrStr]

/-- Witness for C5: a page whose listing scan finds nothing yields the
empty result. -/
theorem simple_scan_authoritative_witness :
    find_tickets ⟨false, true, []⟩ = ⟨[], 0⟩ :=
  (simple_scan_authoritative ⟨false, true, []⟩ rfl rfl).1 rfl

/-- Helper: the retry loop performs at most `remaining` invocations. -/
theorem sendLoop_invocations_le (d : Nat) (impl : Nat → ImplOutcome) :
    ∀ rem a, (sendLoop d impl rem a).invocations ≤ rem := by
  intro rem
  induction rem with
  | zero => intro a; simp [sendLoop]
  | succ m ih =>
    intro a
    cases h : impl a with
    | returns b => simp [sendLoop, h]
    | raises =>
      by_cases hm : m = 0
      · subst hm; simp [sendLoop, h]
      · have h2 := ih (a + 1)
        simp only [sendLoop, h]
        rw [if_neg hm]
        show (sendLoop d impl m (a + 1)).invocations + 1 ≤ m + 1
        omega

/-- Helper: with at least one attempt available, at least one invocation
happens. -/
theorem sendLoop_invocations_pos (d : Nat) (impl : Nat → ImplOutcome) :
    ∀ rem a, 1 ≤ rem → 1 ≤ (sendLoop d impl rem a).invocations := by
  intro rem a hrem
  cases rem with
  | zero => omega
  | succ m =>
    cases h : impl a with
    | returns b => simp [sendLoop, h]
    | raises =>
      by_cases hm : m = 0
      · subst hm; simp [sendLoop, h]
      · simp only [sendLoop, h]
        rw [if_neg hm]
        show 1 ≤ (sendLoop d impl m (a + 1)).invocations + 1
        omega

/-- Helper: the sleeps of the retry loop are exactly the linear backoff
`d * attempt` for every attempt before the last invocation. -/
theorem sendLoop_sleeps_shape (d : Nat) (impl : Nat → ImplOutcome) :
    ∀ rem a, (sendLoop d impl rem a).sleeps
      = (List.range ((sendLoop d impl rem a).invocations - 1)).map fun i => d * (a + i) := by
  intro rem
  induction rem with
  | zero => intro a; simp [sendLoop]
  | succ m ih =>
    intro a
    cases h : impl a with
    | returns b => simp [sendLoop, h]
    | raises =>
      by_cases hm : m = 0
      · subst hm; simp [sendLoop, h]
      · have hpos := sendLoop_invocations_pos d impl m (a + 1) (by omega)
        simp only [sendLoop, h]
        rw [if_neg hm]
        show d * a :: (sendLoop d impl m (a + 1)).sleeps
          = (List.range ((sendLoop d impl m (a + 1)).invocations + 1 - 1)).map
              fun i => d * (a + i)
        rw [ih (a + 1)]
        obtain ⟨k, hk⟩ := Nat.exists_eq_add_of_le hpos
        rw [hk]
        rw [show 1 + k - 1 = k by omega, show 1 + k + 1 - 1 = k + 1 by omega,
          List.range_succ_eq_map, List.map_cons, List.map_map]
        have tail : List.map (fun i => d * (a + 1 + i)) (List.range k)
            = List.map ((fun i => d * (a + i)) ∘ Nat.succ) (List.range k) := by
          apply List.map_congr_left
          intro x hx
          show d * (a + 1 + x) = d * (a + (x + 1))
          ring
        rw [show d * (a + 0) = d * a by ring, ← tail]

/-- Helper: when every available attempt raises, the loop uses all of them
and reports failure. -/
theorem sendLoop_all_raise (d : Nat) (impl : Nat → ImplOutcome) :
    ∀ rem a, (∀ j, j < rem → impl (a + j) = .raises) →
      (sendLoop d impl rem a).invocations = rem
        ∧ (sendLoop d impl rem a).result = false := by
  intro rem
  induction rem with
  | zero => intro a h; simp [sendLoop]
  | succ m ih =>
    intro a h
    have ha : impl a = .raises := by simpa using h 0 (Nat.succ_pos m)
    by_cases hm : m = 0
    · subst hm; simp [sendLoop, ha]
    · have hrec := ih (a + 1) (fun j hj => by
        have h2 := h (j + 1) (by omega)
        rw [show a + 1 + j = a + (j + 1) by omega]
        exact h2)
      simp only [sendLoop, ha]
      rw [if_neg hm]
      constructor
      · show (sendLoop d impl m (a + 1)).invocations + 1 = m + 1
        have := hrec.1
        omega
      · show (sendLoop d impl m (a + 1)).result = false
        exact hrec.2

/-- Helper: the first non-raising attempt, returning `True` at position
`k` (0-based from the loop start), stops the loop with success after
exactly `k + 1` invocations. -/
theorem sendLoop_first_success (d : Nat) (impl : Nat → ImplOutcome) :
    ∀ k rem a, k < rem → (∀ j, j < k → impl (a + j) = .raises) →
      impl (a + k) = .returns true →
      (sendLoop d impl rem a).invocations = k + 1
        ∧ (sendLoop d impl rem a).result = true := by
  intro k
  induction k with
  | zero =>
    intro rem a hk hr hs
    obtain ⟨m, rfl⟩ : ∃ m, rem = m + 1 := ⟨rem - 1, by omega⟩
    have hs0 : impl a = .returns true := by simpa using hs
    simp [sendLoop, hs0]
  | succ k ih =>
    intro rem a hk hr hs
    obtain ⟨m, rfl⟩ : ∃ m, rem = m + 1 := ⟨rem - 1, by omega⟩
    have ha : impl a = .raises := by simpa using hr 0 (Nat.succ_pos k)
    have hm : ¬ m = 0 := by omega
    have hrec := ih m (a + 1) (by omega)
      (fun j hj => by
        have h2 := hr (j + 1) (by omega)
        rw [show a + 1 + j = a + (j + 1) by omega]
        exact h2)
      (by rw [show a + 1 + k = a + (k + 1) by omega]; exact hs)
    simp only [sendLoop, ha]
    rw [if_neg hm]
    constructor
    · show (sendLoop d impl m (a + 1)).invocations + 1 = k + 1 + 1
      have := hrec.1
      omega
    · show (sendLoop d impl m (a + 1)).result = true
      exact hrec.2

/-- C3: `NotificationService.send` with `retry_attempts = n ≥ 1` and
`retry_delay = d` invokes `_send_impl` at most `n` times (and at least
once); the sleeps between attempts are exactly the linear backoff
`d, 2d, 3d, …` for the attempts retried after a raise; if every attempt
raises, the final attempt fails and `send` returns failure without any
exception escaping (the embedding is a total function); the first attempt
that returns `True` stops the loop immediately with success; and in
particular with `retry_attempts=3`, `retry_delay=5` and an `_send_impl`
raising twice then succeeding, there are exactly 3 invocations, success,
and sleeps of 5 s then 10 s. -/
theorem send_retry_spec (n d : Nat) (impl : Nat → ImplOutcome) (hn : 1 ≤ n) :
    (send n d impl).invocations ≤ n
  ∧ 1 ≤ (send n d impl).invocations
  ∧ (send n d impl).sleeps
      = (List.range ((send n d impl).invocations - 1)).map (fun i => d * (i + 1))
  ∧ ((∀ a, 1 ≤ a → a ≤ n → impl a = .raises) →
      (send n d impl).invocations = n ∧ (send n d impl).result = false)
  ∧ (∀ k, k < n → (∀ a, 1 ≤ a → a ≤ k → impl a = .raises) →
      impl (k + 1) = .returns true →
      (send n d impl).invocations = k + 1 ∧ (send n d impl).result = true
        ∧ (send n d impl).sleeps = (List.range k).map (fun i => d * (i + 1)))
  ∧ send 3 5 (fun a => if a ≤ 2 then .raises else .returns true) = ⟨3, [5, 10], true⟩ := by
  have hshape : (send n d impl).sleeps
      = (List.range ((send n d impl).invocations - 1)).map fun i => d * (1 + i) :=
    sendLoop_sleeps_shape d impl n 1
  refine ⟨sendLoop_invocations_le d impl n 1, sendLoop_invocations_pos d impl n 1 hn,
    ?_, ?_, ?_, ?_⟩
  · rw [hshape]
    apply List.map_congr_left
    intro x hx
    ring
  · intro hall
    exact sendLoop_all_raise d impl n 1 (fun j hj => hall (1 + j) (by omega) (by omega))
  · intro k hk hr hs
    have h2 : (send n d impl).invocations = k + 1 ∧ (send n d impl).result = true :=
      sendLoop_first_success d impl k n 1 hk
        (fun j hj => hr (1 + j) (by omega) (by omega))
        (by rw [show (1 : ℕ) + k = k + 1 by omega]; exact hs)
    refine ⟨h2.1, h2.2, ?_⟩
    rw [hshape, h2.1]
    rw [show k + 1 - 1 = k by omega]
    apply List.map_congr_left
    intro x hx
    ring
  · decide

/-- Witness for C3: the concrete raise-twice-then-succeed scenario. -/
theorem send_retry_spec_witness :
    send 3 5 (fun a => if a ≤ 2 then .raises else .returns true) = ⟨3, [5, 10], true⟩ :=
  (send_retry_spec 3 5 (fun a => if a ≤ 2 then .raises else .returns true)
    (by decide)).2.2.2.2.2

/-- Helper: once the shutdown instant has passed, the chunk loop finishes
no later than one chunk (10 s) after it. -/
theorem waitLoop_le_deadline (T : ℚ) :
    ∀ n t, t ≤ T + 10 → waitLoop T n t ≤ T + 10 := by
  intro n
  induction n with
  | zero => intro t ht; simpa [waitLoop] using ht
  | succ m ih =>
    intro t ht
    simp only [waitLoop]
    split_ifs with hT
    · exact ht
    · push_neg at hT
      exact ih (t + 10) (by linarith)

/-- Helper: the chunk loop never runs past its nominal end. -/
theorem waitLoop_le_linear (T : ℚ) :
    ∀ n t, waitLoop T n t ≤ t + 10 * n := by
  intro n
  induction n with
  | zero => intro t; simp [waitLoop]
  | succ m ih =>
    intro t
    simp only [waitLoop]
    split_ifs with hT
    · have hm : (0 : ℚ) ≤ (m : ℚ) := Nat.cast_nonneg m
      push_cast
      linarith
    · have h2 := ih (t + 10)
      push_cast
      push_cast at h2
      linarith

/-- Helper: ten times the chunk count is at most the drawn wait. -/
theorem ten_mul_chunksOf_le (W : ℚ) (hW : 0 ≤ W) : 10 * (chunksOf W : ℚ) ≤ W := by
  unfold chunksOf
  have h0 : (0 : ℤ) ≤ ⌊W / 10⌋ := Int.floor_nonneg.mpr (by positivity)
  have hcast : ((⌊W / 10⌋.toNat : ℕ) : ℚ) = ((⌊W / 10⌋ : ℤ) : ℚ) := by
    exact_mod_cast congrArg (fun z : ℤ => (z : ℚ)) (Int.toNat_of_nonneg h0)
  rw [hcast]
  have hfl : ((⌊W / 10⌋ : ℤ) : ℚ) ≤ W / 10 := Int.floor_le _
  linarith

/-- Helper: the remainder after the full chunks is below one chunk. -/
theorem sub_ten_chunksOf_lt (W : ℚ) (hW : 0 ≤ W) : W - 10 * (chunksOf W : ℚ) < 10 := by
  unfold chunksOf
  have h0 : (0 : ℤ) ≤ ⌊W / 10⌋ := Int.floor_nonneg.mpr (by positivity)
  have hcast : ((⌊W / 10⌋.toNat : ℕ) : ℚ) = ((⌊W / 10⌋ : ℤ) : ℚ) := by
    exact_mod_cast congrArg (fun z : ℤ => (z : ℚ)) (Int.toNat_of_nonneg h0)
  rw [hcast]
  have hfl : W / 10 < ⌊W / 10⌋ + 1 := Int.lt_floor_add_one _
  push_cast at hfl
  linarith

/-- C8: the inter-cycle wait sleeps in fixed 10-second chunks with a
shutdown check between chunks, so whenever the shutdown flag is set at
time `T` inside a chunked wait of total duration `W`, the wait returns at
most 10 seconds after `T` — and never later than the full configured
wait `W`. -/
theorem chunked_wait_responsive (W T : ℚ) (hT : 0 ≤ T) (hTW : T ≤ W) :
    returnTime W T ≤ T + 10 ∧ returnTime W T ≤ W := by
  have hW : 0 ≤ W := le_trans hT hTW
  have hc := ten_mul_chunksOf_le W hW
  have hr := sub_ten_chunksOf_lt W hW
  have hdl := waitLoop_le_deadline T (chunksOf W) 0 (by linarith)
  have hln := waitLoop_le_linear T (chunksOf W) 0
  have hln2 : waitLoop T (chunksOf W) 0 ≤ 10 * (chunksOf W : ℚ) := by linarith
  simp only [returnTime]
  split_ifs with h
  · exact ⟨by linarith, by linarith⟩
  · push_neg at h
    exact ⟨by linarith, by linarith⟩

/-- Witness for C8: a 300-second wait with shutdown requested at 42 s
ends within 10 s of the request and within the drawn wait. -/
theorem chunked_wait_responsive_witness :
    returnTime 300 42 ≤ 42 + 10 ∧ returnTime 300 42 ≤ 300 :=
  chunked_wait_responsive 300 42 (by norm_num) (by norm_num)

end TMRN
